import Mathlib

/-!
Shallow embedding of the Radar-Health-Copilot OaaS maintenance pipeline
(`src/agents/qc_toolbox.py` and `src/agents/agent_system.py`), together with
theorems settling the specification claims about it.

Python dict-shaped packets are modelled by the JSON-like type `Val`; rationals
stand for Python floats (all rule thresholds are exact decimals).  Decimal
rendering of numbers inside anomaly strings abstracts Python float formatting:
no claim depends on the digit values, only on the literal text around them and
on the fact that a rendered number consists of sign/digit/dot characters.
-/

set_option maxHeartbeats 1000000
set_option maxRecDepth 4000

namespace RadarQC

/-! ## Kernel-computable rational arithmetic

`Rat.add`, `Rat.sub`, `Rat.mul`, `Rat.inv` are `@[irreducible]` in Batteries,
so terms built from them cannot be evaluated by `decide`/`rfl`.  The pipeline
is embedded with the equivalent computable wrappers below; the `*_eq` lemmas
prove they are exactly the field operations of `ℚ`. -/

/-- Computable addition on `ℚ`. -/
def qadd (a b : ℚ) : ℚ := mkRat (a.num * b.den + b.num * a.den) (a.den * b.den)

/-- Computable subtraction on `ℚ`. -/
def qsub (a b : ℚ) : ℚ := qadd a (-b)

/-- Computable division on `ℚ` (0 on division by zero, as `ℚ` itself). -/
def qdiv (a b : ℚ) : ℚ := Rat.divInt (a.num * b.den) ((a.den : Int) * b.num)

/-- Computable absolute value on `ℚ`. -/
def qabs (a : ℚ) : ℚ := if a < 0 then -a else a

/-- Computable list sum on `ℚ`. -/
def qsum (l : List ℚ) : ℚ := l.foldr qadd 0

theorem qadd_eq (a b : ℚ) : qadd a b = a + b := by
  rw [qadd, Rat.mkRat_eq_div]
  have ha : (a.den : ℚ) ≠ 0 := Nat.cast_ne_zero.2 a.den_nz
  have hb : (b.den : ℚ) ≠ 0 := Nat.cast_ne_zero.2 b.den_nz
  conv_rhs => rw [← Rat.num_div_den a, ← Rat.num_div_den b]
  push_cast
  field_simp

theorem qsub_eq (a b : ℚ) : qsub a b = a - b := by
  rw [qsub, qadd_eq]; ring

theorem qdiv_eq (a b : ℚ) : qdiv a b = a / b := by
  rw [qdiv, Rat.divInt_eq_div]
  rcases eq_or_ne b 0 with hb | hb
  · subst hb; simp
  · have hbn : (b.num : ℚ) ≠ 0 := Int.cast_ne_zero.2 (Rat.num_ne_zero.2 hb)
    have ha : (a.den : ℚ) ≠ 0 := Nat.cast_ne_zero.2 a.den_nz
    have hbd : (b.den : ℚ) ≠ 0 := Nat.cast_ne_zero.2 b.den_nz
    conv_rhs => rw [← Rat.num_div_den a, ← Rat.num_div_den b]
    push_cast
    field_simp

theorem qabs_eq (a : ℚ) : qabs a = |a| := by
  rw [qabs]
  split
  · rw [abs_of_neg (by assumption)]
  · rw [abs_of_nonneg (by linarith [not_lt.1 (by assumption)])]

theorem qsum_eq (l : List ℚ) : qsum l = l.sum := by
  induction l with
  | nil => rfl
  | cons a l ih => simp only [qsum, List.foldr_cons, List.sum_cons] at ih ⊢; rw [qadd_eq, ih]

/-- Characters the decimal renderers may emit. -/
def numericChars : List Char := ['0', '1', '2', '3', '4', '5', '6', '7', '8', '9', '.', '-']

/-- One decimal digit as a character. -/
def digitChar (n : Nat) : Char := Char.ofNat (48 + n % 10)

/-- Fuel-driven decimal rendering of a natural number, most significant digit first. -/
def natCharsF : Nat → Nat → List Char
  | 0, _ => ['0']
  | fuel + 1, n => if n < 10 then [digitChar n] else natCharsF fuel (n / 10) ++ [digitChar (n % 10)]

/-- Decimal digits of a natural number. -/
def natChars (n : Nat) : List Char := natCharsF (n + 1) n

/-- Exactly `k` decimal digits of `m`, zero padded on the left. -/
def padDigits : Nat → Nat → List Char
  | 0, _ => []
  | k + 1, m => padDigits k (m / 10) ++ [digitChar (m % 10)]

/-- Floor of a nonnegative rational as a natural number. -/
def ratFloorNat (q : ℚ) : Nat := q.num.toNat / q.den

/-- `|q| * 10 ^ k`, computably. -/
def qscale (k : Nat) (q : ℚ) : ℚ := mkRat ((qabs q).num * ((10 : Nat) ^ k : Nat)) (qabs q).den

/-- Fixed-point decimal rendering of a rational with `k` fractional digits,
rounding half away from zero.  Abstracts Python float formatting (`{x:.2f}`
and friends); claims depend only on the emitted character set. -/
def fmtFixed (k : Nat) (q : ℚ) : String :=
  let s : Nat := ratFloorNat (qadd (qscale k q) (mkRat 1 2))
  String.mk ((if q < 0 then ['-'] else []) ++ natChars (s / 10 ^ k) ++ ['.'] ++ padDigits k (s % 10 ^ k))

/-- Rendering used for bare `{x}` interpolation of a float. -/
def fmtPy (q : ℚ) : String := fmtFixed 1 q

/-- Rendering used for `{x:.1f}`. -/
def fmt1 (q : ℚ) : String := fmtFixed 1 q

/-- Rendering used for `{x:.2f}`. -/
def fmt2 (q : ℚ) : String := fmtFixed 2 q

theorem digitChar_mem (n : Nat) : digitChar n ∈ numericChars := by
  have h : n % 10 < 10 := Nat.mod_lt _ (by omega)
  unfold digitChar
  set m := n % 10 with hm
  interval_cases m <;> decide

theorem natCharsF_mem (fuel n : Nat) : ∀ c ∈ natCharsF fuel n, c ∈ numericChars := by
  induction fuel generalizing n with
  | zero => intro c hc; simp only [natCharsF, List.mem_singleton] at hc; subst hc; decide
  | succ fuel ih =>
    intro c hc
    simp only [natCharsF] at hc
    split at hc
    · simp only [List.mem_singleton] at hc; subst hc; exact digitChar_mem n
    · rcases List.mem_append.1 hc with h | h
      · exact ih _ c h
      · simp only [List.mem_singleton] at h; subst h; exact digitChar_mem (n % 10)

theorem natChars_mem (n : Nat) : ∀ c ∈ natChars n, c ∈ numericChars :=
  natCharsF_mem (n + 1) n

theorem padDigits_mem (k m : Nat) : ∀ c ∈ padDigits k m, c ∈ numericChars := by
  induction k generalizing m with
  | zero => intro c hc; simp [padDigits] at hc
  | succ k ih =>
    intro c hc
    simp only [padDigits] at hc
    rcases List.mem_append.1 hc with h | h
    · exact ih _ c h
    · simp only [List.mem_singleton] at h; subst h; exact digitChar_mem (m % 10)

theorem fmtFixed_mem (k : Nat) (q : ℚ) : ∀ c ∈ (fmtFixed k q).data, c ∈ numericChars := by
  intro c hc
  simp only [fmtFixed, String.mk] at hc
  rcases List.mem_append.1 hc with h | h
  · rcases List.mem_append.1 h with h2 | h2
    · rcases List.mem_append.1 h2 with h3 | h3
      · split at h3
        · simp only [List.mem_singleton] at h3; subst h3; decide
        · simp at h3
      · exact natChars_mem _ c h3
    · simp only [List.mem_singleton] at h2; subst h2; decide
  · exact padDigits_mem _ _ c h

theorem natCharsF_ne_nil (fuel n : Nat) : natCharsF fuel n ≠ [] := by
  cases fuel with
  | zero => simp [natCharsF]
  | succ fuel =>
    simp only [natCharsF]
    split
    · simp
    · simp

theorem fmtFixed_ne_nil (k : Nat) (q : ℚ) : (fmtFixed k q).data ≠ [] := by
  simp only [fmtFixed, String.mk]
  intro h
  rcases List.append_eq_nil.1 h with ⟨h1, _⟩
  rcases List.append_eq_nil.1 h1 with ⟨h2, h3⟩
  exact absurd h3 (by simp)

/-! ## The packet data model -/

/-- JSON-like value mirroring the Python data packets: `None`, floats,
strings and dicts (as ordered association lists). -/
inductive Val where
  | null : Val
  | num (q : ℚ) : Val
  | str (s : String) : Val
  | dict (fields : List (String × Val)) : Val

/-- First-match association-list lookup (Python dict keys are unique). -/
def alistLookup {α : Type} : List (String × α) → String → Option α
  | [], _ => none
  | (k, v) :: rest, key => if k = key then some v else alistLookup rest key

/-- Python `d.get(k)`: `None` when the key is absent. -/
def Val.get : Val → String → Val
  | .dict l, k => (alistLookup l k).getD .null
  | _, _ => .null

/-- Python `d.get(k, {})` as used by the internal-consistency check. -/
def Val.getDict : Val → String → Val
  | .dict l, k => (alistLookup l k).getD (.dict [])
  | _, _ => .dict []

def Val.isNull : Val → Bool
  | .null => true
  | _ => false

/-- Python truthiness of packet values. -/
def Val.truthy : Val → Bool
  | .null => false
  | .num q => decide (q ≠ 0)
  | .str s => decide (s ≠ "")
  | .dict l => !l.isEmpty

/-- Numeric content; only applied to values the program has checked to be
numbers (spec section 7: evaluators assume pre-validated numeric types). -/
def Val.toQ : Val → ℚ
  | .num q => q
  | _ => 0

/-- Python `v == "s"` for a value compared against a string literal. -/
def Val.isStrEq : Val → String → Bool
  | .str t, s => decide (t = s)
  | _, _ => false

/-- f-string rendering of a value; abstracts Python repr.  Claims depend on it
only on `None` and on strings. -/
def Val.pyStr : Val → String
  | .null => "None"
  | .num q => fmtPy q
  | .str s => s
  | .dict _ => "dict"

/-- Python `str.lower()` (all data in this repository is ASCII). -/
def pyLower (s : String) : String := String.mk (s.data.map Char.toLower)

/-- Python substring test `needle in hay`. -/
def pyIn (needle hay : String) : Bool := decide (needle.data <:+: hay.data)

/-- Python `sep.join(parts)`. -/
def pyJoin (sep : String) (parts : List String) : String :=
  String.mk (List.intercalate sep.data (parts.map String.data))

/-! ## QC verdicts and the rule evaluators (`qc_toolbox.py`) -/

/-- A QC verdict: the dict `{"passed": ..., "anomalies": [...], "metrics": {...}}`. -/
structure QCResult where
  passed : Bool
  anomalies : List String
  metrics : List (String × Val)

/-- Anomaly text of the temperature range check. -/
def tempRangeAnomaly (v : ℚ) : String :=
  "Physical Limit Failed: " ++ fmtPy v ++ "C is out of valid range [-90, 65]."

/-- Anomaly text of the temperature step check. -/
def tempStepAnomaly (d : ℚ) : String :=
  "Step Check Failed: Sudden jump of " ++ fmt2 d ++ "C."

/-- Anomaly text of the temperature spatial check. -/
def tempSpatialAnomaly (d : ℚ) : String :=
  "Spatial Check Failed: Deviation " ++ fmt1 d ++ "C from neighbors."

/-- The neighbor values with a present (non-null) `value`, in order:
`[n.get("value") for n in neighbor_data if n.get("value") is not None]`. -/
def usableNeighborVals (neighbor_data : List Val) : List Val :=
  (neighbor_data.map (fun n => n.get "value")).filter (fun x => !x.isNull)

/-- `abs(val - mean(valid_neighbors))` of the temperature spatial check. -/
def spatialDev (v : ℚ) (neighbor_data : List Val) : ℚ :=
  qabs (qsub v (qdiv (qsum ((usableNeighborVals neighbor_data).map Val.toQ))
    ((usableNeighborVals neighbor_data).length : ℚ)))

/-- Checks 1 and 2 of `qc_temperature_data` (range, then step against the
previous record), for a present numeric value `v`. -/
def tempRangeStep (v : ℚ) (prev_record : Val) : QCResult :=
  -- 1. physical limits check
  let r1 : QCResult :=
    if (-90 : ℚ) ≤ v ∧ v ≤ 65 then ⟨true, [], []⟩ else ⟨false, [tempRangeAnomaly v], []⟩
  -- 2. step check against the previous record
  if prev_record.truthy && !(prev_record.get "value").isNull then
    let diff := qabs (qsub v (prev_record.get "value").toQ)
    let m := r1.metrics ++ [("step_change", Val.num diff)]
    if diff > 5 then ⟨false, r1.anomalies ++ [tempStepAnomaly diff], m⟩
    else ⟨r1.passed, r1.anomalies, m⟩
  else r1

/-- Check 3 of `qc_temperature_data` (spatial consistency against neighbors
with a present value), applied to the verdict `r2` of the first two checks. -/
def tempSpatialBlock (v : ℚ) (neighbor_data : List Val) (r2 : QCResult) : QCResult :=
  if (usableNeighborVals neighbor_data).isEmpty then r2
  else
    let dev := spatialDev v neighbor_data
    let m := r2.metrics ++ [("spatial_deviation", Val.num dev)]
    if dev > 8 then ⟨false, r2.anomalies ++ [tempSpatialAnomaly dev], m⟩
    else ⟨r2.passed, r2.anomalies, m⟩

/-- `QCToolbox.qc_temperature_data`: range, step and spatial checks (the
three numbered sections of the source function, composed in order after the
missing-value early return). -/
def QCToolbox.qc_temperature_data (station_data : Val) (neighbor_data : List Val)
    (prev_record : Val) : QCResult :=
  let val := station_data.get "value"
  if val.isNull then ⟨false, ["Missing temperature value."], []⟩
  else tempSpatialBlock val.toQ neighbor_data (tempRangeStep val.toQ prev_record)

/-- `QCToolbox.qc_humidity_data`: range check only. -/
def QCToolbox.qc_humidity_data (station_data : Val) : QCResult :=
  let val := station_data.get "value"
  if val.isNull then ⟨false, ["Missing humidity value."], []⟩
  else
    let v := val.toQ
    if v < 0 ∨ v > mkRat 201 2 then
      ⟨false, ["Physical Limit Failed: Humidity " ++ fmtPy v ++ "% is physically impossible."], []⟩
    else ⟨true, [], []⟩

/-- Anomaly text of the pressure step check. -/
def pressureStepAnomaly (d : ℚ) : String :=
  "Step Check Failed: Pressure jump " ++ fmt2 d ++ "hPa."

/-- `QCToolbox.qc_pressure_data`: range and step checks.  Note: unlike the
temperature evaluator, the computed step difference is never stored in
`metrics`. -/
def QCToolbox.qc_pressure_data (station_data : Val) (prev_record : Val) : QCResult :=
  let val := station_data.get "value"
  if val.isNull then ⟨false, ["Missing pressure value."], []⟩
  else
    let v := val.toQ
    let r1 : QCResult :=
      if (300 : ℚ) ≤ v ∧ v ≤ 1100 then ⟨true, [], []⟩
      else ⟨false, ["Physical Limit Failed: Pressure " ++ fmtPy v ++ "hPa out of meteorological range."], []⟩
    if prev_record.truthy && !(prev_record.get "value").isNull then
      let diff := qabs (qsub v (prev_record.get "value").toQ)
      if diff > 3 then ⟨false, r1.anomalies ++ [pressureStepAnomaly diff], r1.metrics⟩
      else r1
    else r1

/-- `QCToolbox.qc_wind_data`: vector logic checks. -/
def QCToolbox.qc_wind_data (station_data : Val) : QCResult :=
  let speed := station_data.get "speed"
  let direction := station_data.get "direction"
  if speed.isNull || direction.isNull then ⟨false, ["Missing wind speed or direction."], []⟩
  else
    let s := speed.toQ
    let d := direction.toQ
    let r1 : QCResult :=
      if s < 0 then ⟨false, ["Physical Limit Failed: Negative wind speed " ++ fmtPy s ++ "."], []⟩
      else if s > 100 then
        ⟨false, ["Physical Limit Failed: Suspicious high wind " ++ fmtPy s ++ "m/s."], []⟩
      else ⟨true, [], []⟩
    let r2 : QCResult :=
      if (0 : ℚ) ≤ d ∧ d ≤ 360 then r1
      else ⟨false, r1.anomalies ++ ["Physical Limit Failed: Invalid direction " ++ fmtPy d ++ "."], r1.metrics⟩
    if s = 0 ∧ d ≠ 0 then
      ⟨r2.passed, r2.anomalies,
        r2.metrics ++ [("warning", Val.str "Calm wind with non-zero direction detected.")]⟩
    else r2

/-- `QCToolbox.qc_precipitation_data`: tipping-bucket checks. -/
def QCToolbox.qc_precipitation_data (station_data : Val) : QCResult :=
  let val := station_data.get "value"
  if val.isNull then ⟨false, ["Missing precipitation value."], []⟩
  else
    let v := val.toQ
    let r1 : QCResult :=
      if v < 0 then ⟨false, ["Physical Limit Failed: Negative precipitation."], []⟩
      else ⟨true, [], []⟩
    if v > 20 then
      ⟨false, r1.anomalies ++ ["Physical Limit Failed: Suspicious rain rate " ++ fmtPy v ++ "mm/min."], r1.metrics⟩
    else r1

/-- `QCToolbox.check_internal_consistency`: cross-variable checks, returning a
bare list of anomaly strings. -/
def QCToolbox.check_internal_consistency (combined_data : Val) : List String :=
  let temp := (combined_data.getDict "temperature").get "value"
  let precip := (combined_data.getDict "precipitation").get "value"
  let humidity := (combined_data.getDict "humidity").get "value"
  let a1 : List String :=
    if !precip.isNull && decide (precip.toQ > mkRat 1 2) && !humidity.isNull
        && decide (humidity.toQ < 30) then
      ["Physics Mismatch: Raining (" ++ fmtPy precip.toQ ++ "mm) but Humidity is low ("
        ++ fmtPy humidity.toQ ++ "%). Suspect Tipping Bucket error."]
    else []
  let a2 : List String :=
    if !precip.isNull && decide (precip.toQ > 0) && !temp.isNull && decide (temp.toQ < -5) then
      ["Physics Warning: Precipitation detected at " ++ fmtPy temp.toQ
        ++ "C. Ensure sensor heating is active."]
    else []
  a1 ++ a2

/-- `QCToolbox.qc_radar_data`: SNR and reflectivity-bias checks. -/
def QCToolbox.qc_radar_data (log_data : Val) : QCResult :=
  let snr := log_data.get "snr"
  if snr.isNull then ⟨false, ["Missing radar SNR."], []⟩
  else
    let s := snr.toQ
    let r1 : QCResult :=
      if s < 10 then ⟨false, ["Low SNR Detected: " ++ fmtPy s ++ " dB."], []⟩
      else ⟨true, [], []⟩
    let bias := log_data.get "reflectivity_bias"
    if bias.isNull then r1
    else
      let b := bias.toQ
      let m := r1.metrics ++ [("reflectivity_bias", Val.num b)]
      if qabs b > 3 then
        ⟨false, r1.anomalies ++ ["Reflectivity bias high: " ++ fmtPy b ++ " dBZ."], m⟩
      else ⟨r1.passed, r1.anomalies, m⟩

/-! ## The Monitor (`agent_system.py`, `MonitorAgent`) -/

/-- Output bundle of `MonitorAgent.run`. -/
structure MonitorOutput where
  summary : String
  qc_result : QCResult
  all_results : List (String × QCResult)

/-- `MonitorAgent._run_composite`: fan out to every sub-evaluator whose field
is present (truthy), then the cross-variable consistency check.  The result
list models the Python dict in insertion order. -/
def MonitorAgent.run_composite (packet : Val) (neighbor_data : List Val)
    (prev_record : Val) : List (String × QCResult) :=
  let temp := packet.get "temperature"
  let r1 : List (String × QCResult) :=
    if temp.truthy then
      [("temperature", QCToolbox.qc_temperature_data temp neighbor_data
        (prev_record.get "temperature"))]
    else []
  let humidity := packet.get "humidity"
  let r2 : List (String × QCResult) :=
    if humidity.truthy then [("humidity", QCToolbox.qc_humidity_data humidity)] else []
  let pressure := packet.get "pressure"
  let r3 : List (String × QCResult) :=
    if pressure.truthy then
      [("pressure", QCToolbox.qc_pressure_data pressure (prev_record.get "pressure"))]
    else []
  let wind := packet.get "wind"
  let r4 : List (String × QCResult) :=
    if wind.truthy then [("wind", QCToolbox.qc_wind_data wind)] else []
  let precip := packet.get "precipitation"
  let r5 : List (String × QCResult) :=
    if precip.truthy then [("precipitation", QCToolbox.qc_precipitation_data precip)] else []
  let radar := packet.get "radar"
  let r6 : List (String × QCResult) :=
    if radar.truthy then [("radar", QCToolbox.qc_radar_data radar)] else []
  let consistency := QCToolbox.check_internal_consistency packet
  let r7 : List (String × QCResult) :=
    if consistency.isEmpty then [] else [("internal_consistency", ⟨false, consistency, []⟩)]
  r1 ++ r2 ++ r3 ++ r4 ++ r5 ++ r6 ++ r7

/-- `MonitorAgent._collapse_results`: AND of `passed`, name-tagged anomaly
concatenation, per-name metrics map, in result order. -/
def MonitorAgent.collapse_results (all_results : List (String × QCResult)) : QCResult :=
  { passed := all_results.all (fun nr => nr.2.passed),
    anomalies := all_results.foldl
      (fun acc nr => acc ++ nr.2.anomalies.map (fun a => "[" ++ nr.1 ++ "] " ++ a)) [],
    metrics := all_results.map (fun nr => (nr.1, Val.dict nr.2.metrics)) }

/-- `MonitorAgent._format_summary`. -/
def MonitorAgent.format_summary (data_packet : Val) (qc_result : QCResult)
    (all_results : List (String × QCResult)) : String :=
  let status := if qc_result.passed then "HEALTHY" else "ANOMALY"
  let detail :=
    if qc_result.anomalies.isEmpty then "All QC checks passed."
    else pyJoin "; " qc_result.anomalies
  if all_results.length > 1 then
    let counts := pyJoin ", "
      (all_results.map (fun nr => nr.1 ++ ":" ++ if nr.2.passed then "OK" else "X"))
    status ++ " | composite | " ++ detail ++ " | [" ++ counts ++ "]"
  else status ++ " | " ++ (data_packet.get "type").pyStr ++ " | " ++ detail

/-- `MonitorAgent.run`: dispatch on the packet `type` (`neighbor_data or []`
and `prev_record or {}` defaults included). -/
def MonitorAgent.run (data_packet : Val) (neighbor_data : Option (List Val))
    (prev_record : Val) : MonitorOutput :=
  let nbrs := neighbor_data.getD []
  let prev := if prev_record.truthy then prev_record else Val.dict []
  let dt := data_packet.get "type"
  let pair : QCResult × List (String × QCResult) :=
    if dt.isStrEq "temperature" then
      let qc := QCToolbox.qc_temperature_data data_packet nbrs (prev.get "temperature")
      (qc, [("temperature", qc)])
    else if dt.isStrEq "radar" then
      let qc := QCToolbox.qc_radar_data data_packet
      (qc, [("radar", qc)])
    else if dt.isStrEq "humidity" then
      let qc := QCToolbox.qc_humidity_data data_packet
      (qc, [("humidity", qc)])
    else if dt.isStrEq "pressure" then
      let qc := QCToolbox.qc_pressure_data data_packet (prev.get "pressure")
      (qc, [("pressure", qc)])
    else if dt.isStrEq "precipitation" then
      let qc := QCToolbox.qc_precipitation_data data_packet
      (qc, [("precipitation", qc)])
    else if dt.isStrEq "wind" then
      let qc := QCToolbox.qc_wind_data data_packet
      (qc, [("wind", qc)])
    else if dt.isStrEq "composite" then
      let all := MonitorAgent.run_composite data_packet nbrs prev
      (MonitorAgent.collapse_results all, all)
    else
      let qc : QCResult := ⟨false, ["Unsupported data type: " ++ dt.pyStr], []⟩
      (qc, [(if dt.truthy then dt.pyStr else "unknown", qc)])
  { summary := MonitorAgent.format_summary data_packet pair.1 pair.2,
    qc_result := pair.1,
    all_results := pair.2 }

/-! ## The Diagnostician (`DiagnosticsAgent`) -/

/-- A diagnosis: conclusion, confidence, rationale. -/
structure Diagnosis where
  conclusion : String
  confidence : String
  rationale : String

/-- `DiagnosticsAgent._is_calm_weather`: no storm keyword occurs in the
lowered metadata. -/
def DiagnosticsAgent.is_calm_weather (metadata : String) : Bool :=
  let lowered := pyLower metadata
  !(["storm", "convective", "heavy rain", "thunder", "squall"].any
    (fun token => pyIn token lowered))

/-- One iteration of the anomaly-scanning loop body of
`DiagnosticsAgent.diagnose`: the first matching branch of the if/elif chain,
as (conclusion, confidence, rationale fragment); `none` when no rule matches
this anomaly.  Every branch of the source chain assigns all three. -/
def DiagnosticsAgent.ruleMatch (metadata anomaly : String) :
    Option (String × String × String) :=
  let lowered := pyLower anomaly
  if pyIn "spatial check failed" lowered then
    if DiagnosticsAgent.is_calm_weather metadata then
      some ("Sensor warm bias or shielding issue.", "high",
        "High deviation with calm weather context.")
    else
      some ("Possible localized weather; monitor closely.", "medium",
        "Spatial deviation but convective keywords present.")
  else if pyIn "limit check failed" lowered then
    some ("Sensor failure suspected.", "high", "Value outside physical bounds.")
  else if pyIn "low snr" lowered then
    some ("Radar SNR drop; check attenuator or blockage.", "medium",
      "SNR below operational threshold.")
  else if pyIn "reflectivity bias" lowered then
    some ("Radar calibration drift.", "medium", "Bias exceeds tolerance.")
  else if pyIn "pressure jump" lowered then
    some ("Pressure sensor or barometer offset; verify met mast and plumbing.", "medium",
      "Rapid pressure change violates synoptic continuity.")
  else if pyIn "rain rate" lowered || pyIn "precipitation" lowered then
    some ("Rain gauge mechanical issue (double tipping/overflow) or blockage.", "medium",
      "Precipitation magnitude beyond mechanical tolerance.")
  else if pyIn "wind" lowered then
    some ("Anemometer or vane fault; inspect bearings/cabling.", "medium",
      "Wind vector outside physical range.")
  else if pyIn "internal consistency" lowered || pyIn "physics mismatch" lowered then
    some ("Cross-variable inconsistency; likely sensor drift or heating failure.", "medium",
      "Physics relationship violated across variables.")
  else none

/-- `DiagnosticsAgent.diagnose`: early return on a passed verdict, then the
anomaly loop carrying mutable (conclusion, confidence, rationale list). -/
def DiagnosticsAgent.diagnose (monitor_output : MonitorOutput) (metadata : String) :
    Diagnosis :=
  if monitor_output.qc_result.passed then
    ⟨"No issue detected.", "low", "All QC checks passed."⟩
  else
    let st := monitor_output.qc_result.anomalies.foldl
      (fun acc a =>
        match DiagnosticsAgent.ruleMatch metadata a with
        | some (t, c, r) => (t, c, acc.2.2 ++ [r])
        | none => acc)
      ("Unknown anomaly.", "medium", ([] : List String))
    let rationale :=
      if st.2.2.isEmpty then ["No rule matched; manual review recommended."] else st.2.2
    ⟨st.1, st.2.1, pyJoin " " rationale⟩

/-! ## The Reporter (`ReporterAgent`) -/

/-- `ReporterAgent._risk_level`: first-match risk classification. -/
def ReporterAgent.risk_level (monitor_output : MonitorOutput) (diagnosis : Diagnosis) :
    String :=
  if monitor_output.qc_result.passed then "GREEN"
  else if pyIn "Limit Check" (pyJoin " " monitor_output.qc_result.anomalies) then "RED"
  else if diagnosis.confidence = "high" then "YELLOW"
  else "BLUE"

/-- `ReporterAgent._tasks`: independent anomaly-substring and packet-type
tests, in source order. -/
def ReporterAgent.tasks (anomalies : List String) (data_packet : Val) : List String :=
  let t1 : List String :=
    if anomalies.any (fun a => pyIn "spatial check failed" (pyLower a)) then
      ["Inspect radiation shield ventilation and sensor placement.",
       "Perform 3-point calibration against handheld reference."]
    else []
  let t2 : List String :=
    if anomalies.any (fun a => pyIn "limit check failed" (pyLower a)) then
      ["Power-cycle sensor and verify firmware health."]
    else []
  let t3 : List String :=
    if (data_packet.get "type").isStrEq "radar" then
      ["Check radome cleanliness and receiver attenuation."]
    else []
  let t4 : List String :=
    if anomalies.any (fun a => pyIn "pressure" (pyLower a)) then
      ["Check pressure port desiccant and zero offset."]
    else []
  let t5 : List String :=
    if anomalies.any (fun a => pyIn "precipitation" (pyLower a) || pyIn "rain" (pyLower a)) then
      ["Inspect tipping bucket for clogging or double tipping."]
    else []
  let t6 : List String :=
    if anomalies.any (fun a => pyIn "wind" (pyLower a)) then
      ["Inspect anemometer bearings and vane alignment."]
    else []
  let t7 : List String :=
    if anomalies.any (fun a =>
        pyIn "internal consistency" (pyLower a) || pyIn "physics mismatch" (pyLower a)) then
      ["Cross-check heating, shielding, and colocated instruments."]
    else []
  let all := t1 ++ t2 ++ t3 ++ t4 ++ t5 ++ t6 ++ t7
  if all.isEmpty then ["Monitor feed; no immediate action."] else all

/-- `ReporterAgent.generate_ticket`: the fixed-format multi-line ticket. -/
def ReporterAgent.generate_ticket (data_packet : Val) (monitor_output : MonitorOutput)
    (diagnosis : Diagnosis) : String :=
  let qc_passed := monitor_output.qc_result.passed
  let risk := ReporterAgent.risk_level monitor_output diagnosis
  let anomalies := monitor_output.qc_result.anomalies
  let taskList := ReporterAgent.tasks anomalies data_packet
  pyJoin "\n"
    (["**MAINTENANCE TICKET**",
      "Risk: " ++ risk,
      "Data Type: " ++ (data_packet.get "type").pyStr,
      "Monitor: " ++ monitor_output.summary,
      "Diagnosis: " ++ diagnosis.conclusion ++ " (confidence: " ++ diagnosis.confidence ++ ")",
      "Rationale: " ++ diagnosis.rationale,
      "Actions:"]
      ++ taskList.map (fun task => "- " ++ task)
      ++ [if qc_passed then "Status: CLOSE" else "Status: INVESTIGATE"])

/-! ## The Orchestrator (`AgentOrchestrator`) -/

/-- Station Memory: the orchestrator's `prev_records` dict. -/
def Mem : Type := List (String × Val)

/-- Python dict assignment `m[k] = v`: replace in place or append. -/
def alistSet (m : List (String × Val)) (k : String) (v : Val) : List (String × Val) :=
  if m.any (fun kv => kv.1 = k) then
    m.map (fun kv => if kv.1 = k then (k, v) else kv)
  else m ++ [(k, v)]

/-- Output bundle of `run_pipeline`. -/
structure PipelineResult where
  monitor_output : MonitorOutput
  diagnosis : Diagnosis
  report : String

/-- `AgentOrchestrator.run_pipeline` as a state-threaded method: it reads the
explicit `prev_record` argument only, and neither reads nor writes the
orchestrator's Station Memory (`self.prev_records`), which is therefore
passed through unchanged. -/
def AgentOrchestrator.run_pipeline (mem : Mem) (data_packet : Val)
    (neighbor_data : Option (List Val)) (metadata : String) (prev_record : Val) :
    PipelineResult × Mem :=
  let mo := MonitorAgent.run data_packet neighbor_data prev_record
  let diag := DiagnosticsAgent.diagnose mo metadata
  let ticket := ReporterAgent.generate_ticket data_packet mo diag
  (⟨mo, diag, ticket⟩, mem)

/-- The station key of a packet: `packet.get("station_id", "unknown")`
(non-string ids are abstracted by their rendering). -/
def stationOf (packet : Val) : String :=
  match packet with
  | .dict l =>
    match alistLookup l "station_id" with
    | some v => v.pyStr
    | none => "unknown"
  | _ => "unknown"

/-- `AgentOrchestrator._update_prev_records`: build a fresh record from the
packet and, when nonempty, store it for the station (replacing any previous
record wholesale). -/
def AgentOrchestrator.update_prev_records (mem : Mem) (station_id : String)
    (packet : Val) : Mem :=
  let dt := packet.get "type"
  let record : List (String × Val) :=
    if dt.isStrEq "temperature" then [("temperature", packet)]
    else if dt.isStrEq "pressure" then [("pressure", packet)]
    else if dt.isStrEq "composite" then
      (if (packet.get "temperature").truthy then [("temperature", packet.get "temperature")]
       else [])
      ++ (if (packet.get "pressure").truthy then [("pressure", packet.get "pressure")] else [])
    else []
  if record.isEmpty then mem else alistSet mem station_id (Val.dict record)

/-- `AgentOrchestrator.run_stream`: sequential per-packet pipeline with
Station Memory lookup before and update after each packet. -/
def AgentOrchestrator.run_stream (mem : Mem) (packets : List Val)
    (neighbor_lookup : Option (Val → List Val)) (metadata_lookup : Option (Val → String)) :
    List PipelineResult × Mem :=
  match packets with
  | [] => ([], mem)
  | packet :: rest =>
    let station_id := stationOf packet
    let neighbor_data := neighbor_lookup.map (fun f => f packet)
    let metadata := (metadata_lookup.map (fun f => f packet)).getD ""
    let prev_record := ((alistLookup mem station_id).getD (Val.dict []))
    let step := AgentOrchestrator.run_pipeline mem packet neighbor_data metadata prev_record
    let mem2 := AgentOrchestrator.update_prev_records step.2 station_id packet
    let tail := AgentOrchestrator.run_stream mem2 rest neighbor_lookup metadata_lookup
    (step.1 :: tail.1, tail.2)

/-! ## Verdict invariant: `passed == (anomalies is empty)` -/

/-- The intended QC-verdict contract. -/
def Inv (r : QCResult) : Prop := r.passed = true ↔ r.anomalies = []

theorem inv_temperature (d : Val) (n : List Val) (p : Val) :
    Inv (QCToolbox.qc_temperature_data d n p) := by
  unfold Inv QCToolbox.qc_temperature_data tempSpatialBlock tempRangeStep
  dsimp only
  repeat' split
  all_goals simp_all

theorem inv_humidity (d : Val) : Inv (QCToolbox.qc_humidity_data d) := by
  unfold Inv QCToolbox.qc_humidity_data
  dsimp only
  repeat' split
  all_goals simp_all

theorem inv_pressure (d p : Val) : Inv (QCToolbox.qc_pressure_data d p) := by
  unfold Inv QCToolbox.qc_pressure_data
  dsimp only
  repeat' split
  all_goals simp_all

theorem inv_wind (d : Val) : Inv (QCToolbox.qc_wind_data d) := by
  unfold Inv QCToolbox.qc_wind_data
  dsimp only
  repeat' split
  all_goals simp_all

theorem inv_precipitation (d : Val) : Inv (QCToolbox.qc_precipitation_data d) := by
  unfold Inv QCToolbox.qc_precipitation_data
  dsimp only
  repeat' split
  all_goals simp_all

theorem inv_radar (d : Val) : Inv (QCToolbox.qc_radar_data d) := by
  unfold Inv QCToolbox.qc_radar_data
  dsimp only
  repeat' split
  all_goals simp_all

/-- The anomaly accumulation loop of `_collapse_results` is the name-tagged
concatenation of the sub-verdicts' anomaly lists. -/
theorem collapse_anomalies_foldl (rs : List (String × QCResult)) (acc : List String) :
    rs.foldl (fun acc nr => acc ++ nr.2.anomalies.map (fun a => "[" ++ nr.1 ++ "] " ++ a)) acc
      = acc ++ rs.flatMap (fun nr => nr.2.anomalies.map (fun a => "[" ++ nr.1 ++ "] " ++ a)) := by
  induction rs generalizing acc with
  | nil => simp
  | cons nr rs ih => simp [List.foldl_cons, ih]

theorem collapse_anomalies (rs : List (String × QCResult)) :
    (MonitorAgent.collapse_results rs).anomalies
      = rs.flatMap (fun nr => nr.2.anomalies.map (fun a => "[" ++ nr.1 ++ "] " ++ a)) := by
  unfold MonitorAgent.collapse_results
  dsimp only
  rw [collapse_anomalies_foldl]
  simp

theorem collapse_passed (rs : List (String × QCResult)) :
    (MonitorAgent.collapse_results rs).passed = true ↔ ∀ nr ∈ rs, nr.2.passed = true := by
  unfold MonitorAgent.collapse_results
  dsimp only
  rw [List.all_eq_true]

theorem inv_collapse (rs : List (String × QCResult)) (h : ∀ nr ∈ rs, Inv nr.2) :
    Inv (MonitorAgent.collapse_results rs) := by
  unfold Inv
  rw [collapse_passed, collapse_anomalies, List.flatMap_eq_nil_iff]
  constructor
  · intro hp nr hnr
    simp [List.map_eq_nil_iff, (h nr hnr).1 (hp nr hnr)]
  · intro ha nr hnr
    exact (h nr hnr).2 (by simpa [List.map_eq_nil_iff] using ha nr hnr)

theorem inv_run_composite (p : Val) (n : List Val) (pr : Val) :
    ∀ nr ∈ MonitorAgent.run_composite p n pr, Inv nr.2 := by
  intro nr hnr
  unfold MonitorAgent.run_composite at hnr
  dsimp only at hnr
  simp only [List.mem_append] at hnr
  rcases hnr with ((((((h | h) | h) | h) | h) | h) | h)
  · split at h
    · simp only [List.mem_singleton] at h; subst h; exact inv_temperature ..
    · simp at h
  · split at h
    · simp only [List.mem_singleton] at h; subst h; exact inv_humidity ..
    · simp at h
  · split at h
    · simp only [List.mem_singleton] at h; subst h; exact inv_pressure ..
    · simp at h
  · split at h
    · simp only [List.mem_singleton] at h; subst h; exact inv_wind ..
    · simp at h
  · split at h
    · simp only [List.mem_singleton] at h; subst h; exact inv_precipitation ..
    · simp at h
  · split at h
    · simp only [List.mem_singleton] at h; subst h; exact inv_radar ..
    · simp at h
  · split at h
    · simp at h
    · simp only [List.mem_singleton] at h
      subst h
      unfold Inv
      simp only
      rw [← List.isEmpty_iff]
      simp_all

/-- C2.  Every QC verdict produced by the Monitor — single-variable,
composite (after collapse) or unsupported type — satisfies
`passed == (anomalies is empty)`. -/
theorem C2_monitor_passed_iff_no_anomalies (packet : Val) (neighbors : Option (List Val))
    (prev : Val) :
    (MonitorAgent.run packet neighbors prev).qc_result.passed = true
      ↔ (MonitorAgent.run packet neighbors prev).qc_result.anomalies = [] := by
  unfold MonitorAgent.run
  dsimp only
  repeat' split
  all_goals
    first
      | exact inv_temperature ..
      | exact inv_radar ..
      | exact inv_humidity ..
      | exact inv_pressure ..
      | exact inv_precipitation ..
      | exact inv_wind ..
      | exact inv_collapse _ (inv_run_composite _ _ _)
      | simp

/-- C5.  The collapsed verdict of a composite packet: `passed` is the AND of
all sub-verdicts' `passed`, and the anomaly list is exactly the sub-verdicts'
anomalies in sub-verdict order, each prefixed with its source name in
brackets. -/
theorem C5_composite_collapse (rs : List (String × QCResult)) :
    ((MonitorAgent.collapse_results rs).passed = true ↔ ∀ nr ∈ rs, nr.2.passed = true)
    ∧ (MonitorAgent.collapse_results rs).anomalies
        = rs.flatMap (fun nr => nr.2.anomalies.map (fun a => "[" ++ nr.1 ++ "] " ++ a))
    ∧ (∀ a ∈ (MonitorAgent.collapse_results rs).anomalies,
        ∃ nr ∈ rs, ∃ b ∈ nr.2.anomalies, a = "[" ++ nr.1 ++ "] " ++ b) := by
  refine ⟨collapse_passed rs, collapse_anomalies rs, ?_⟩
  intro a ha
  rw [collapse_anomalies] at ha
  simp only [List.mem_flatMap, List.mem_map] at ha
  obtain ⟨nr, hnr, b, hb, hba⟩ := ha
  exact ⟨nr, hnr, b, hb, hba.symm⟩

/-- C9.  `run_pipeline` is deterministic and free of hidden mutable state:
with the same packet, neighbors, metadata and previous record it returns
identical output on a repeated call, and Station Memory is left unchanged. -/
theorem C9_run_pipeline_deterministic (mem : Mem) (packet : Val)
    (neighbors : Option (List Val)) (metadata : String) (prev : Val) :
    (AgentOrchestrator.run_pipeline mem packet neighbors metadata prev).2 = mem
    ∧ (AgentOrchestrator.run_pipeline
          (AgentOrchestrator.run_pipeline mem packet neighbors metadata prev).2
          packet neighbors metadata prev).1
        = (AgentOrchestrator.run_pipeline mem packet neighbors metadata prev).1 :=
  ⟨rfl, rfl⟩

/-- C8 counterexample.  A pressure packet with value 1000 hPa and a previous
record with value 1001 hPa: the step comparison runs (|Δ| = 1, check passes),
yet the verdict's metrics dict is empty — it does not contain the step-change
magnitude, contrary to the claim. -/
theorem C8_pressure_step_metric_counterexample :
    (alistLookup (QCToolbox.qc_pressure_data
        (Val.dict [("type", Val.str "pressure"), ("value", Val.num 1000)])
        (Val.dict [("value", Val.num 1001)])).metrics "step_change" = none)
    ∧ (QCToolbox.qc_pressure_data
        (Val.dict [("type", Val.str "pressure"), ("value", Val.num 1000)])
        (Val.dict [("value", Val.num 1001)])).metrics = []
    ∧ (QCToolbox.qc_pressure_data
        (Val.dict [("type", Val.str "pressure"), ("value", Val.num 1000)])
        (Val.dict [("value", Val.num 1001)])).passed = true := by
  refine ⟨rfl, rfl, rfl⟩

/-- C8 (amended).  The pressure evaluator computes |Δ| only for the step
comparison and never stores anything in `metrics`: the metrics dict of every
pressure verdict is empty (only the temperature evaluator records a
`step_change` metric). -/
theorem C8_pressure_metrics_always_empty (station_data prev_record : Val) :
    (QCToolbox.qc_pressure_data station_data prev_record).metrics = [] := by
  unfold QCToolbox.qc_pressure_data
  dsimp only
  repeat' split
  all_goals simp_all

/-- Looking up the key just stored by Python dict assignment. -/
theorem alistLookup_alistSet (m : List (String × Val)) (k : String) (v : Val) :
    alistLookup (alistSet m k v) k = some v := by
  unfold alistSet
  split
  · rename_i hany
    induction m with
    | nil => simp at hany
    | cons kv rest ih =>
      simp only [List.any_cons, Bool.or_eq_true, decide_eq_true_eq] at hany
      simp only [List.map_cons]
      by_cases hk : kv.1 = k
      · rw [if_pos hk]
        simp [alistLookup]
      · rw [if_neg hk]
        simp only [alistLookup, if_neg hk]
        refine ih ?_
        rcases hany with h | h
        · exact absurd h hk
        · exact h
  · rename_i hany
    induction m with
    | nil => simp [alistLookup]
    | cons kv rest ih =>
      have h1 : ¬ (kv.1 = k) := fun h => hany (by simp [List.any_cons, h])
      have h2 : ¬ ((rest.any fun kv => decide (kv.1 = k)) = true) :=
        fun h => hany (by simp [List.any_cons, h])
      simp only [List.cons_append, alistLookup, if_neg h1]
      exact ih h2

/-- C3 counterexample.  Station S1 first sends a pressure packet (cached
under `pressure`), then a composite packet carrying only temperature: after
the composite packet the station's record has no `pressure` key any more —
the cached pressure entry does not survive, contrary to the claim. -/
theorem C3_prev_record_merge_counterexample :
    (((alistLookup (AgentOrchestrator.run_stream []
        [Val.dict [("type", Val.str "pressure"), ("station_id", Val.str "S1"),
          ("value", Val.num 900)]] none none).2 "S1").getD Val.null).get
        "pressure").isNull = false
    ∧ (((alistLookup (AgentOrchestrator.run_stream []
        [Val.dict [("type", Val.str "pressure"), ("station_id", Val.str "S1"),
          ("value", Val.num 900)],
         Val.dict [("type", Val.str "composite"), ("station_id", Val.str "S1"),
          ("temperature", Val.dict [("value", Val.num 20)])]] none none).2 "S1").getD
        Val.null).get "pressure").isNull = true := by
  refine ⟨rfl, rfl⟩

/-- C3 (amended).  When a composite packet is stored for a station, the
present `temperature`/`pressure` sub-fields form a fresh record that replaces
the station's cached record wholesale; keys of the previously cached record
that the packet does not carry are dropped, not preserved. -/
theorem C3_composite_update_replaces_record (mem : Mem) (station : String) (p t : Val)
    (hty : (p.get "type").isStrEq "composite" = true)
    (ht : p.get "temperature" = t) (htr : t.truthy = true)
    (hpr : (p.get "pressure").truthy = false) :
    alistLookup (AgentOrchestrator.update_prev_records mem station p) station
      = some (Val.dict [("temperature", t)]) := by
  unfold AgentOrchestrator.update_prev_records
  dsimp only
  have hnt : (p.get "type").isStrEq "temperature" = false := by
    cases hv : p.get "type" <;> simp_all [Val.isStrEq]
  have hnp : (p.get "type").isStrEq "pressure" = false := by
    cases hv : p.get "type" <;> simp_all [Val.isStrEq]
  rw [hnt, hnp, hty, ht, htr, hpr]
  simp only [if_true, if_false, Bool.false_eq_true, List.append_nil]
  rw [if_neg (by simp)]
  exact alistLookup_alistSet ..

/-- C3 witness. -/
theorem C3_composite_update_replaces_record_witness :
    alistLookup (AgentOrchestrator.update_prev_records
        [("S1", Val.dict [("pressure", Val.dict [("value", Val.num 900)])])] "S1"
        (Val.dict [("type", Val.str "composite"), ("station_id", Val.str "S1"),
          ("temperature", Val.dict [("value", Val.num 20)])])) "S1"
      = some (Val.dict [("temperature", Val.dict [("value", Val.num 20)])]) :=
  C3_composite_update_replaces_record
    [("S1", Val.dict [("pressure", Val.dict [("value", Val.num 900)])])] "S1"
    (Val.dict [("type", Val.str "composite"), ("station_id", Val.str "S1"),
      ("temperature", Val.dict [("value", Val.num 20)])])
    (Val.dict [("value", Val.num 20)]) rfl rfl rfl rfl

/-- C4.  Streaming three composite packets — station S1 at 20.0 °C, station
S2 at 26.0 °C, then station S1 at 30.5 °C: the third run's anomalies are
exactly the `[temperature]`-prefixed step-check failure (jump 10.50), while
the S2 packet in between passes untouched by S1's cached record (26.0 vs the
cached 20.0 would have exceeded the 5.0 step threshold had memory leaked
across stations). -/
theorem C4_stream_step_check_and_isolation :
    ((AgentOrchestrator.run_stream []
        [Val.dict [("type", Val.str "composite"), ("station_id", Val.str "S1"),
          ("temperature", Val.dict [("value", Val.num 20)])],
         Val.dict [("type", Val.str "composite"), ("station_id", Val.str "S2"),
          ("temperature", Val.dict [("value", Val.num 26)])],
         Val.dict [("type", Val.str "composite"), ("station_id", Val.str "S1"),
          ("temperature", Val.dict [("value", Val.num (mkRat 61 2))])]] none none).1.map
      (fun r => r.monitor_output.qc_result.anomalies))
      = [[], [], ["[temperature] Step Check Failed: Sudden jump of 10.50C."]]
    ∧ ((AgentOrchestrator.run_stream []
        [Val.dict [("type", Val.str "composite"), ("station_id", Val.str "S1"),
          ("temperature", Val.dict [("value", Val.num 20)])],
         Val.dict [("type", Val.str "composite"), ("station_id", Val.str "S2"),
          ("temperature", Val.dict [("value", Val.num 26)])],
         Val.dict [("type", Val.str "composite"), ("station_id", Val.str "S1"),
          ("temperature", Val.dict [("value", Val.num (mkRat 61 2))])]] none none).1.map
      (fun r => r.monitor_output.qc_result.passed)) = [true, true, false] := by
  refine ⟨rfl, rfl⟩

/-! ## Substring reasoning for anomaly texts

The diagnostician and reporter match fixed alphabetic patterns against
anomaly strings whose only variable parts are rendered numbers.  The lemmas
below let a pattern be refuted against `literal ++ number ++ literal`. -/

/-- A pattern containing a character the text lacks is not a substring. -/
theorem not_infix_of_missing_char {p l : List Char} {c : Char} (hc : c ∈ p) (hl : c ∉ l) :
    ¬ p <:+: l := fun h => hl (h.subset hc)

/-- A pattern that is disjoint from a nonempty middle section and is not a
substring of either side is not a substring of the three-part concatenation. -/
theorem not_infix_append_mid {p l1 m l2 : List Char} (h1 : ¬ p <:+: l1) (h2 : ¬ p <:+: l2)
    (hd : ∀ c ∈ p, c ∉ m) (hm : m ≠ []) : ¬ p <:+: (l1 ++ m ++ l2) := by
  rintro ⟨s, t, hst⟩
  rw [List.append_assoc s, List.append_assoc l1] at hst
  rcases List.append_eq_append_iff.1 hst with ⟨a, ha1, ha2⟩ | ⟨c, hc1, hc2⟩
  · -- l1 = s ++ a and p ++ t = a ++ (m ++ l2)
    rcases List.append_eq_append_iff.1 ha2 with ⟨b, hb1, hb2⟩ | ⟨b, hb1, hb2⟩
    · -- a = p ++ b: the occurrence lies inside l1
      exact h1 ⟨s, b, by rw [List.append_assoc, ← hb1, ← ha1]⟩
    · -- p = a ++ b and m ++ l2 = b ++ t
      rcases List.append_eq_append_iff.1 hb2 with ⟨x, hx1, hx2⟩ | ⟨y, hy1, hy2⟩
      · -- b = m ++ x: all of m lies inside p
        obtain ⟨ch, hch⟩ := List.exists_mem_of_ne_nil m hm
        have hchb : ch ∈ b := by rw [hx1]; exact List.mem_append.2 (Or.inl hch)
        have hchp : ch ∈ p := by rw [hb1]; exact List.mem_append.2 (Or.inr hchb)
        exact hd ch hchp hch
      · -- m = b ++ y: b is a prefix of m
        cases b with
        | nil =>
          -- p = a, a suffix of l1: the occurrence lies inside l1
          rw [List.append_nil] at hb1
          exact h1 ⟨s, [], by rw [List.append_nil, hb1, ← ha1]⟩
        | cons ch btail =>
          have hchb : ch ∈ ch :: btail := List.mem_cons_self ..
          have hchp : ch ∈ p := by rw [hb1]; exact List.mem_append.2 (Or.inr hchb)
          have hchm : ch ∈ m := by rw [hy1]; exact List.mem_append.2 (Or.inl hchb)
          exact hd ch hchp hchm
  · -- s = l1 ++ c and m ++ l2 = c ++ (p ++ t)
    rcases List.append_eq_append_iff.1 hc2 with ⟨x, hx1, hx2⟩ | ⟨y, hy1, hy2⟩
    · -- c = m ++ x and l2 = x ++ (p ++ t): the occurrence lies inside l2
      exact h2 ⟨x, t, by rw [List.append_assoc, ← hx2]⟩
    · -- m = c ++ y and p ++ t = y ++ l2
      rcases List.append_eq_append_iff.1 hy2 with ⟨z, hz1, hz2⟩ | ⟨z, hz1, hz2⟩
      · -- y = p ++ z: p lies inside m (or p = [])
        cases p with
        | nil => exact h1 ⟨[], l1, by simp⟩
        | cons ch ptail =>
          have hchp : ch ∈ ch :: ptail := List.mem_cons_self ..
          have hchy : ch ∈ y := by rw [hz1]; exact List.mem_append.2 (Or.inl hchp)
          have hchm : ch ∈ m := by rw [hy1]; exact List.mem_append.2 (Or.inr hchy)
          exact hd ch hchp hchm
      · -- p = y ++ z and l2 = z ++ t
        cases y with
        | nil =>
          -- p = z and l2 = p ++ t: the occurrence lies inside l2
          rw [List.nil_append] at hz1
          exact h2 ⟨[], t, by rw [List.nil_append, hz1, ← hz2]⟩
        | cons ch ytail =>
          have hchy : ch ∈ ch :: ytail := List.mem_cons_self ..
          have hchp : ch ∈ p := by rw [hz1]; exact List.mem_append.2 (Or.inl hchy)
          have hchm : ch ∈ m := by rw [hy1]; exact List.mem_append.2 (Or.inr hchy)
          exact hd ch hchp hchm

/-- The applied form: an alphabetic pattern against
`literal ++ rendered-number ++ literal`. -/
theorem not_infix_three {p A M B : List Char} (h1 : ¬ p <:+: A) (h2 : ¬ p <:+: B)
    (hM : ∀ c ∈ M, c ∈ numericChars) (hMne : M ≠ [])
    (hp : ∀ c ∈ p, c ∉ numericChars) : ¬ p <:+: (A ++ M ++ B) :=
  not_infix_append_mid h1 h2 (fun c hc hcm => hp c hc (hM c hcm)) hMne

theorem pyIn_eq_false {needle hay : String} (h : ¬ needle.data <:+: hay.data) :
    pyIn needle hay = false := by simp [pyIn, h]

theorem toLower_numeric : ∀ c ∈ numericChars, Char.toLower c = c := by decide

theorem map_toLower_numeric {l : List Char} (hl : ∀ c ∈ l, c ∈ numericChars) :
    ∀ c ∈ l.map Char.toLower, c ∈ numericChars := by
  intro c hc
  rcases List.mem_map.1 hc with ⟨c0, hc0, rfl⟩
  rw [toLower_numeric c0 (hl c0 hc0)]
  exact hl c0 hc0

theorem pyLower_data (s : String) : (pyLower s).data = s.data.map Char.toLower := rfl

theorem tempRangeAnomaly_data (v : ℚ) :
    (tempRangeAnomaly v).data
      = "Physical Limit Failed: ".data ++ (fmtPy v).data
        ++ "C is out of valid range [-90, 65].".data := by
  simp [tempRangeAnomaly]

theorem fmtPy_map_toLower_numeric (v : ℚ) :
    ∀ c ∈ (fmtPy v).data.map Char.toLower, c ∈ numericChars :=
  map_toLower_numeric (fmtFixed_mem 1 v)

theorem fmtPy_map_toLower_ne_nil (v : ℚ) : (fmtPy v).data.map Char.toLower ≠ [] := by
  intro h
  exact fmtFixed_ne_nil 1 v (List.map_eq_nil_iff.1 h)

theorem lower_tempRange_data (v : ℚ) :
    (pyLower (tempRangeAnomaly v)).data
      = "physical limit failed: ".data ++ ((fmtPy v).data.map Char.toLower)
        ++ "c is out of valid range [-90, 65].".data := by
  rw [pyLower_data, tempRangeAnomaly_data]
  simp only [List.map_append]
  rw [(by decide : "Physical Limit Failed: ".data.map Char.toLower
        = "physical limit failed: ".data),
    (by decide : "C is out of valid range [-90, 65].".data.map Char.toLower
        = "c is out of valid range [-90, 65].".data)]

/-- No alphabetic pattern avoiding both literal halves matches the lowered
range anomaly, whatever the rendered value. -/
theorem pyIn_lower_tempRange_false (pat : String) (v : ℚ)
    (h1 : ¬ pat.data <:+: "physical limit failed: ".data)
    (h2 : ¬ pat.data <:+: "c is out of valid range [-90, 65].".data)
    (hp : ∀ c ∈ pat.data, c ∉ numericChars) :
    pyIn pat (pyLower (tempRangeAnomaly v)) = false := by
  apply pyIn_eq_false
  rw [lower_tempRange_data]
  exact not_infix_three h1 h2 (fmtPy_map_toLower_numeric v) (fmtPy_map_toLower_ne_nil v) hp

/-- No diagnosis rule matches a temperature range-check anomaly: its text
says "Physical Limit Failed", which none of the rule substrings (including
"limit check failed") occurs in. -/
theorem ruleMatch_tempRange_none (md : String) (v : ℚ) :
    DiagnosticsAgent.ruleMatch md (tempRangeAnomaly v) = none := by
  unfold DiagnosticsAgent.ruleMatch
  dsimp only
  rw [pyIn_lower_tempRange_false "spatial check failed" v (by decide) (by decide) (by decide),
    pyIn_lower_tempRange_false "limit check failed" v (by decide) (by decide) (by decide),
    pyIn_lower_tempRange_false "low snr" v (by decide) (by decide) (by decide),
    pyIn_lower_tempRange_false "reflectivity bias" v (by decide) (by decide) (by decide),
    pyIn_lower_tempRange_false "pressure jump" v (by decide) (by decide) (by decide),
    pyIn_lower_tempRange_false "rain rate" v (by decide) (by decide) (by decide),
    pyIn_lower_tempRange_false "precipitation" v (by decide) (by decide) (by decide),
    pyIn_lower_tempRange_false "wind" v (by decide) (by decide) (by decide),
    pyIn_lower_tempRange_false "internal consistency" v (by decide) (by decide) (by decide),
    pyIn_lower_tempRange_false "physics mismatch" v (by decide) (by decide) (by decide)]
  simp

/-- A temperature packet with no neighbors and no previous record fails with
exactly the range anomaly when the value is out of [-90, 65]. -/
theorem qc_temp_range_only (packet : Val) (v : ℚ)
    (hv : packet.get "value" = Val.num v)
    (hout : ¬ ((-90 : ℚ) ≤ v ∧ v ≤ 65)) :
    QCToolbox.qc_temperature_data packet [] Val.null
      = ⟨false, [tempRangeAnomaly v], []⟩ := by
  unfold QCToolbox.qc_temperature_data tempSpatialBlock tempRangeStep
  rw [hv]
  simp [Val.isNull, Val.toQ, Val.truthy, usableNeighborVals, hout]

theorem pyJoin_singleton (sep a : String) : pyJoin sep [a] = a := by
  simp [pyJoin, List.intercalate]

/-- "Limit Check" does not occur in a range anomaly (which says
"Physical Limit Failed"), whatever the rendered value. -/
theorem limit_check_not_in_tempRange (v : ℚ) :
    pyIn "Limit Check" (tempRangeAnomaly v) = false := by
  apply pyIn_eq_false
  rw [tempRangeAnomaly_data]
  exact not_infix_three (by decide) (by decide) (fmtFixed_mem 1 v)
    (fmtFixed_ne_nil 1 v) (by decide)

/-- C1 counterexample.  The temperature packet with value 70 °C (outside
[-90, 65]) fails QC with the range anomaly, yet the generated risk level is
BLUE, not RED: the anomaly text "Physical Limit Failed: ..." does not contain
"Limit Check", and no diagnosis rule matches it, so confidence stays medium. -/
theorem C1_range_failure_risk_counterexample :
    (MonitorAgent.run (Val.dict [("type", Val.str "temperature"), ("value", Val.num 70)])
      none Val.null).qc_result.passed = false
    ∧ (MonitorAgent.run (Val.dict [("type", Val.str "temperature"), ("value", Val.num 70)])
      none Val.null).qc_result.anomalies = [tempRangeAnomaly 70]
    ∧ ReporterAgent.risk_level
        (MonitorAgent.run (Val.dict [("type", Val.str "temperature"), ("value", Val.num 70)])
          none Val.null)
        (DiagnosticsAgent.diagnose
          (MonitorAgent.run (Val.dict [("type", Val.str "temperature"), ("value", Val.num 70)])
            none Val.null) "")
      = "BLUE" := by
  refine ⟨rfl, rfl, rfl⟩

/-- C1 (amended).  The Reporter assigns RED only when some anomaly literally
contains "Limit Check"; range-check failures emit "Physical Limit Failed"
instead, which also matches no diagnosis rule, so a temperature packet whose
only failure is the physical-validity range check gets risk level BLUE. -/
theorem C1_range_failure_risk_blue (packet : Val) (v : ℚ) (md : String)
    (hty : packet.get "type" = Val.str "temperature")
    (hv : packet.get "value" = Val.num v)
    (hout : ¬ ((-90 : ℚ) ≤ v ∧ v ≤ 65)) :
    (MonitorAgent.run packet (some []) Val.null).qc_result
        = ⟨false, [tempRangeAnomaly v], []⟩
    ∧ ReporterAgent.risk_level (MonitorAgent.run packet (some []) Val.null)
        (DiagnosticsAgent.diagnose (MonitorAgent.run packet (some []) Val.null) md)
      = "BLUE" := by
  have hqc : (MonitorAgent.run packet (some []) Val.null).qc_result
      = ⟨false, [tempRangeAnomaly v], []⟩ := by
    unfold MonitorAgent.run
    dsimp only
    rw [hty]
    simp [Val.isStrEq, Val.truthy, Val.get, alistLookup, Option.getD,
      qc_temp_range_only packet v hv hout]
  refine ⟨hqc, ?_⟩
  have hdiag : DiagnosticsAgent.diagnose (MonitorAgent.run packet (some []) Val.null) md
      = ⟨"Unknown anomaly.", "medium",
          pyJoin " " ["No rule matched; manual review recommended."]⟩ := by
    unfold DiagnosticsAgent.diagnose
    rw [hqc]
    simp [ruleMatch_tempRange_none md v]
  rw [ReporterAgent.risk_level, hqc, hdiag]
  simp [pyJoin_singleton, limit_check_not_in_tempRange]

/-- C1 witness. -/
theorem C1_range_failure_risk_blue_witness :
    ((Val.dict [("type", Val.str "temperature"), ("value", Val.num 70)]).get "type"
        = Val.str "temperature")
    ∧ ((Val.dict [("type", Val.str "temperature"), ("value", Val.num 70)]).get "value"
        = Val.num 70)
    ∧ ¬ ((-90 : ℚ) ≤ 70 ∧ (70 : ℚ) ≤ 65)
    ∧ ((MonitorAgent.run (Val.dict [("type", Val.str "temperature"), ("value", Val.num 70)])
          (some []) Val.null).qc_result = ⟨false, [tempRangeAnomaly 70], []⟩
      ∧ ReporterAgent.risk_level
          (MonitorAgent.run (Val.dict [("type", Val.str "temperature"), ("value", Val.num 70)])
            (some []) Val.null)
          (DiagnosticsAgent.diagnose
            (MonitorAgent.run (Val.dict [("type", Val.str "temperature"), ("value", Val.num 70)])
              (some []) Val.null) "calm")
        = "BLUE") :=
  ⟨rfl, rfl, by decide,
    C1_range_failure_risk_blue
      (Val.dict [("type", Val.str "temperature"), ("value", Val.num 70)]) 70 "calm"
      rfl rfl (by decide)⟩

/-! ## The diagnostician's scanning loop, declaratively -/

/-- The anomaly-scanning loop of `diagnose`, for any starting state: the final
conclusion/confidence come from the last anomaly that matched any rule, and
the matched rationale fragments are appended in order. -/
theorem diag_foldl_spec (md : String) (l : List String) (t c : String) (rs : List String) :
    l.foldl (fun acc a =>
        match DiagnosticsAgent.ruleMatch md a with
        | some (t2, c2, r2) => (t2, c2, acc.2.2 ++ [r2])
        | none => acc) (t, c, rs)
      = (((l.filterMap (DiagnosticsAgent.ruleMatch md)).getLast?.map (fun m => m.1)).getD t,
         ((l.filterMap (DiagnosticsAgent.ruleMatch md)).getLast?.map (fun m => m.2.1)).getD c,
         rs ++ (l.filterMap (DiagnosticsAgent.ruleMatch md)).map (fun m => m.2.2)) := by
  induction l generalizing t c rs with
  | nil => simp
  | cons a l ih =>
    simp only [List.foldl_cons, List.filterMap_cons]
    cases hm : DiagnosticsAgent.ruleMatch md a with
    | none => exact ih t c rs
    | some m =>
      obtain ⟨t2, c2, r2⟩ := m
      rw [ih t2 c2 (rs ++ [r2])]
      cases hM : l.filterMap (DiagnosticsAgent.ruleMatch md) with
      | nil => simp
      | cons m2 M2 =>
        obtain ⟨x, hx⟩ := Option.isSome_iff_exists.1
          (List.getLast?_isSome.2 (List.cons_ne_nil m2 M2))
        simp [hx]

/-- C7.  On a failed verdict the Diagnostician scans the anomalies in order
with case-insensitive substring matching against its fixed rule table: the
returned conclusion and confidence are those of the last anomaly matching any
rule (defaults "Unknown anomaly."/"medium" when none matched), and the
rationale is the in-order accumulation of every matched rule's fragment (or
the fixed manual-review fallback). -/
theorem C7_diagnose_last_match_wins (out : MonitorOutput) (md : String)
    (h : out.qc_result.passed = false) :
    (DiagnosticsAgent.diagnose out md).conclusion
        = (((out.qc_result.anomalies.filterMap (DiagnosticsAgent.ruleMatch md)).getLast?.map
            (fun m => m.1)).getD "Unknown anomaly.")
    ∧ (DiagnosticsAgent.diagnose out md).confidence
        = (((out.qc_result.anomalies.filterMap (DiagnosticsAgent.ruleMatch md)).getLast?.map
            (fun m => m.2.1)).getD "medium")
    ∧ (DiagnosticsAgent.diagnose out md).rationale
        = pyJoin " "
            (if out.qc_result.anomalies.filterMap (DiagnosticsAgent.ruleMatch md) = [] then
              ["No rule matched; manual review recommended."]
            else
              (out.qc_result.anomalies.filterMap (DiagnosticsAgent.ruleMatch md)).map
                (fun m => m.2.2)) := by
  unfold DiagnosticsAgent.diagnose
  rw [h]
  simp only [Bool.false_eq_true, if_false, diag_foldl_spec, List.nil_append]
  refine ⟨by trivial, by trivial, ?_⟩
  by_cases hM : out.qc_result.anomalies.filterMap (DiagnosticsAgent.ruleMatch md) = []
  · simp [hM]
  · rw [if_neg hM, if_neg ?_]
    intro hmap
    exact hM (List.map_eq_nil_iff.1 (List.isEmpty_iff.1 hmap))

/-- A concrete failed radar monitor output: a low-SNR anomaly followed by a
reflectivity-bias anomaly (both match diagnosis rules). -/
def radarDiagExample : MonitorOutput :=
  ⟨"s", ⟨false, ["Low SNR Detected: 8.0 dB.", "Reflectivity bias high: 4.0 dBZ."], []⟩, []⟩

/-- C7 witness: on the concrete failed radar output both anomalies match,
the later rule's conclusion/confidence win and both fragments accumulate. -/
theorem C7_diagnose_last_match_wins_witness :
    radarDiagExample.qc_result.passed = false
    ∧ ((DiagnosticsAgent.diagnose radarDiagExample "clear").conclusion
        = (((radarDiagExample.qc_result.anomalies.filterMap
              (DiagnosticsAgent.ruleMatch "clear")).getLast?.map (fun m => m.1)).getD
            "Unknown anomaly.")
      ∧ (DiagnosticsAgent.diagnose radarDiagExample "clear").confidence
        = (((radarDiagExample.qc_result.anomalies.filterMap
              (DiagnosticsAgent.ruleMatch "clear")).getLast?.map (fun m => m.2.1)).getD
            "medium")
      ∧ (DiagnosticsAgent.diagnose radarDiagExample "clear").rationale
        = pyJoin " "
            (if radarDiagExample.qc_result.anomalies.filterMap
                (DiagnosticsAgent.ruleMatch "clear") = [] then
              ["No rule matched; manual review recommended."]
            else
              (radarDiagExample.qc_result.anomalies.filterMap
                (DiagnosticsAgent.ruleMatch "clear")).map (fun m => m.2.2))) :=
  ⟨rfl, C7_diagnose_last_match_wins radarDiagExample "clear" rfl⟩

/-! ## C6: the spatial check -/

theorem alistLookup_eq_none {m : List (String × Val)} {k : String}
    (h : ∀ kv ∈ m, kv.1 ≠ k) : alistLookup m k = none := by
  induction m with
  | nil => rfl
  | cons kv rest ih =>
    rw [alistLookup, if_neg (h kv (List.mem_cons_self ..))]
    exact ih (fun kv2 h2 => h kv2 (List.mem_cons_of_mem _ h2))

theorem alistLookup_append_last {m : List (String × Val)} {k : String} {v : Val}
    (h : ∀ kv ∈ m, kv.1 ≠ k) : alistLookup (m ++ [(k, v)]) k = some v := by
  induction m with
  | nil => simp [alistLookup]
  | cons kv rest ih =>
    rw [List.cons_append, alistLookup, if_neg (h kv (List.mem_cons_self ..))]
    exact ih (fun kv2 h2 => h kv2 (List.mem_cons_of_mem _ h2))

theorem tempStepAnomaly_data (d : ℚ) :
    (tempStepAnomaly d).data
      = "Step Check Failed: Sudden jump of ".data ++ (fmt2 d).data ++ "C.".data := by
  simp [tempStepAnomaly]

theorem tempSpatialAnomaly_data (d : ℚ) :
    (tempSpatialAnomaly d).data
      = "Spatial Check Failed: Deviation ".data ++ (fmt1 d).data
        ++ "C from neighbors.".data := by
  simp [tempSpatialAnomaly]

/-- Two `literal ++ number ++ literal` texts whose literal heads differ at
some index are different. -/
theorem ne_append_three {A B A2 B2 M M2 : List Char} {i : Nat}
    (hiA : i < A.length) (hiA2 : i < A2.length) (hne : A[i]? ≠ A2[i]?) :
    A ++ M ++ B ≠ A2 ++ M2 ++ B2 := by
  intro h
  apply hne
  have h1 : (A ++ M ++ B)[i]? = A[i]? := by
    rw [List.append_assoc, List.getElem?_append_left hiA]
  have h2 : (A2 ++ M2 ++ B2)[i]? = A2[i]? := by
    rw [List.append_assoc, List.getElem?_append_left hiA2]
  rw [← h1, ← h2, h]

theorem spatial_ne_range (x v : ℚ) : tempSpatialAnomaly x ≠ tempRangeAnomaly v := by
  intro h
  have hd := congrArg String.data h
  rw [tempSpatialAnomaly_data, tempRangeAnomaly_data] at hd
  exact ne_append_three (i := 1) (by decide) (by decide) (by decide) hd

theorem spatial_ne_step (x d : ℚ) : tempSpatialAnomaly x ≠ tempStepAnomaly d := by
  intro h
  have hd := congrArg String.data h
  rw [tempSpatialAnomaly_data, tempStepAnomaly_data] at hd
  exact ne_append_three (i := 2) (by decide) (by decide) (by decide) hd

/-- The range/step part of the evaluator only produces range and step
anomalies. -/
theorem tempRangeStep_anomalies (v : ℚ) (prev : Val) :
    ∀ a ∈ (tempRangeStep v prev).anomalies,
      (∃ w, a = tempRangeAnomaly w) ∨ ∃ w, a = tempStepAnomaly w := by
  intro a ha
  unfold tempRangeStep at ha
  dsimp only at ha
  repeat' split at ha
  all_goals simp_all
  all_goals tauto

/-- The range/step part of the evaluator only writes the `step_change`
metric. -/
theorem tempRangeStep_metrics (v : ℚ) (prev : Val) :
    ∀ kv ∈ (tempRangeStep v prev).metrics, kv.1 = "step_change" := by
  intro kv hkv
  unfold tempRangeStep at hkv
  dsimp only at hkv
  repeat' split at hkv
  all_goals simp_all

/-- C6.  For a temperature packet with a numeric value: with at least one
usable (non-null) neighbor value, `metrics["spatial_deviation"]` is exactly
`|value − mean(usable neighbor values)|` and the spatial-check anomaly is in
the verdict iff that deviation exceeds 8.0, forcing `passed = false`; with no
usable neighbor value the check is skipped — no `spatial_deviation` metric
and no spatial anomaly. -/
theorem C6_spatial_check (d : Val) (v : ℚ) (nbrs : List Val) (prev : Val)
    (hv : d.get "value" = Val.num v) :
    (usableNeighborVals nbrs ≠ [] →
      alistLookup (QCToolbox.qc_temperature_data d nbrs prev).metrics "spatial_deviation"
          = some (Val.num (spatialDev v nbrs))
      ∧ spatialDev v nbrs
          = |v - ((usableNeighborVals nbrs).map Val.toQ).sum
              / ((usableNeighborVals nbrs).length : ℚ)|
      ∧ (tempSpatialAnomaly (spatialDev v nbrs)
            ∈ (QCToolbox.qc_temperature_data d nbrs prev).anomalies
          ↔ spatialDev v nbrs > 8)
      ∧ (spatialDev v nbrs > 8 →
          (QCToolbox.qc_temperature_data d nbrs prev).passed = false))
    ∧ (usableNeighborVals nbrs = [] →
      alistLookup (QCToolbox.qc_temperature_data d nbrs prev).metrics "spatial_deviation"
          = none
      ∧ ∀ x, tempSpatialAnomaly x ∉ (QCToolbox.qc_temperature_data d nbrs prev).anomalies) := by
  have hqc : QCToolbox.qc_temperature_data d nbrs prev
      = tempSpatialBlock v nbrs (tempRangeStep v prev) := by
    unfold QCToolbox.qc_temperature_data
    rw [hv]
    simp [Val.isNull, Val.toQ]
  have hmet := tempRangeStep_metrics v prev
  have hano := tempRangeStep_anomalies v prev
  have hmet2 : ∀ kv ∈ (tempRangeStep v prev).metrics, kv.1 ≠ "spatial_deviation" := by
    intro kv hkv
    rw [hmet kv hkv]
    decide
  have hano2 : ∀ x, tempSpatialAnomaly x ∉ (tempRangeStep v prev).anomalies := by
    intro x hx
    rcases hano _ hx with ⟨w, hw⟩ | ⟨w, hw⟩
    · exact spatial_ne_range x w hw
    · exact spatial_ne_step x w hw
  rw [hqc]
  unfold tempSpatialBlock
  dsimp only
  constructor
  · intro hne
    rw [if_neg (by simpa [List.isEmpty_iff] using hne)]
    split
    · -- deviation above threshold: anomaly appended, passed forced false
      rename_i hdev
      refine ⟨alistLookup_append_last hmet2, ?_, ?_, fun _ => rfl⟩
      · rw [spatialDev, qabs_eq, qsub_eq, qdiv_eq, qsum_eq]
      · simp only [List.mem_append, List.mem_singleton]
        constructor
        · intro _; exact hdev
        · intro _; right; trivial
    · -- deviation within threshold: metric recorded, no anomaly
      rename_i hdev
      refine ⟨alistLookup_append_last hmet2, ?_, ?_, fun hgt => absurd hgt hdev⟩
      · rw [spatialDev, qabs_eq, qsub_eq, qdiv_eq, qsum_eq]
      · simp only
        constructor
        · intro hmem; exact absurd hmem (hano2 _)
        · intro hgt; exact absurd hgt hdev
  · intro heq
    rw [if_pos (by simp [heq])]
    exact ⟨alistLookup_eq_none hmet2, hano2⟩

/-- C6 witness: the claim's example — value 30.0, neighbors 20.0 and 21.0,
deviation 9.5 > 8.0, spatial failure. -/
theorem C6_spatial_check_witness :
    ((Val.dict [("value", Val.num 30)]).get "value" = Val.num 30)
    ∧ usableNeighborVals [Val.dict [("value", Val.num 20)], Val.dict [("value", Val.num 21)]]
        ≠ []
    ∧ spatialDev 30 [Val.dict [("value", Val.num 20)], Val.dict [("value", Val.num 21)]]
        = mkRat 19 2
    ∧ (usableNeighborVals [Val.dict [("value", Val.num 20)], Val.dict [("value", Val.num 21)]]
          ≠ [] →
        alistLookup (QCToolbox.qc_temperature_data (Val.dict [("value", Val.num 30)])
            [Val.dict [("value", Val.num 20)], Val.dict [("value", Val.num 21)]]
            Val.null).metrics "spatial_deviation"
          = some (Val.num (spatialDev 30
              [Val.dict [("value", Val.num 20)], Val.dict [("value", Val.num 21)]]))
        ∧ spatialDev 30 [Val.dict [("value", Val.num 20)], Val.dict [("value", Val.num 21)]]
            = |(30 : ℚ) - ((usableNeighborVals
                  [Val.dict [("value", Val.num 20)], Val.dict [("value", Val.num 21)]]).map
                    Val.toQ).sum
                / ((usableNeighborVals
                    [Val.dict [("value", Val.num 20)],
                      Val.dict [("value", Val.num 21)]]).length : ℚ)|
        ∧ (tempSpatialAnomaly (spatialDev 30
              [Val.dict [("value", Val.num 20)], Val.dict [("value", Val.num 21)]])
              ∈ (QCToolbox.qc_temperature_data (Val.dict [("value", Val.num 30)])
                  [Val.dict [("value", Val.num 20)], Val.dict [("value", Val.num 21)]]
                  Val.null).anomalies
            ↔ spatialDev 30 [Val.dict [("value", Val.num 20)], Val.dict [("value", Val.num 21)]]
                > 8)
        ∧ (spatialDev 30 [Val.dict [("value", Val.num 20)], Val.dict [("value", Val.num 21)]]
              > 8 →
            (QCToolbox.qc_temperature_data (Val.dict [("value", Val.num 30)])
                [Val.dict [("value", Val.num 20)], Val.dict [("value", Val.num 21)]]
                Val.null).passed = false)) :=
  ⟨rfl, fun h => List.cons_ne_nil (Val.num 20) [Val.num 21] h, by decide,
    (C6_spatial_check (Val.dict [("value", Val.num 30)]) 30
      [Val.dict [("value", Val.num 20)], Val.dict [("value", Val.num 21)]] Val.null rfl).1⟩

/-! ## C10: falsy composite sub-fields are skipped -/

theorem not_prefix_append {p l r : List Char} (h1 : ¬ p <+: l) (h2 : ¬ l <+: p) :
    ¬ p <+: (l ++ r) := by
  intro h
  rcases List.prefix_or_prefix_of_prefix h (List.prefix_append l r) with hc | hc
  · exact h1 hc
  · exact h2 hc

/-- With a falsy `temperature` field, the composite fan-out only produces the
other five variables and the consistency entry. -/
theorem run_composite_keys (p : Val) (nbrs : List Val) (prev : Val)
    (ht : (p.get "temperature").truthy = false) :
    ∀ nr ∈ MonitorAgent.run_composite p nbrs prev,
      nr.1 ∈ ["humidity", "pressure", "wind", "precipitation", "radar",
        "internal_consistency"] := by
  intro nr hnr
  unfold MonitorAgent.run_composite at hnr
  dsimp only at hnr
  rw [ht] at hnr
  simp only [Bool.false_eq_true, if_false, List.nil_append, List.mem_append] at hnr
  rcases hnr with (((((h | h) | h) | h) | h) | h) <;>
    · split at h
      all_goals first
        | (simp only [List.mem_singleton] at h
           subst h
           simp)
        | simp at h

/-- C10.  In a composite packet, a present-but-empty `temperature` sub-record
is silently skipped: it yields no sub-verdict (no `temperature` key in the
all-results map), no anomaly (in particular none prefixed `[temperature]`),
and if every produced sub-verdict passes, the collapsed verdict passes; only
a non-empty (truthy) sub-record lacking its `value` yields the missing-value
failure. -/
theorem C10_empty_subfield_skipped (p : Val) (nbrs : Option (List Val)) (prev : Val)
    (hty : p.get "type" = Val.str "composite")
    (ht : p.get "temperature" = Val.dict []) :
    (∀ nr ∈ (MonitorAgent.run p nbrs prev).all_results, nr.1 ≠ "temperature")
    ∧ (∀ a ∈ (MonitorAgent.run p nbrs prev).qc_result.anomalies,
        ¬ ("[temperature]".data <+: a.data))
    ∧ ((∀ nr ∈ (MonitorAgent.run p nbrs prev).all_results, nr.2.passed = true) →
        (MonitorAgent.run p nbrs prev).qc_result.passed = true)
    ∧ (∀ sub nbrs2 prev2, sub.truthy = true → (sub.get "value").isNull = true →
        QCToolbox.qc_temperature_data sub nbrs2 prev2
          = ⟨false, ["Missing temperature value."], []⟩) := by
  have htr : (p.get "temperature").truthy = false := by rw [ht]; rfl
  have hrun : MonitorAgent.run p nbrs prev
      = { summary := MonitorAgent.format_summary p
            (MonitorAgent.collapse_results (MonitorAgent.run_composite p (nbrs.getD [])
              (if prev.truthy = true then prev else Val.dict [])))
            (MonitorAgent.run_composite p (nbrs.getD [])
              (if prev.truthy = true then prev else Val.dict [])),
          qc_result := MonitorAgent.collapse_results (MonitorAgent.run_composite p
            (nbrs.getD []) (if prev.truthy = true then prev else Val.dict [])),
          all_results := MonitorAgent.run_composite p (nbrs.getD [])
            (if prev.truthy = true then prev else Val.dict []) } := by
    unfold MonitorAgent.run
    dsimp only
    rw [hty]
    simp [Val.isStrEq]
  have hkeys := run_composite_keys p (nbrs.getD [])
    (if prev.truthy = true then prev else Val.dict []) htr
  refine ⟨?_, ?_, ?_, ?_⟩
  · intro nr hnr
    rw [hrun] at hnr
    intro hname
    have := hkeys nr hnr
    rw [hname] at this
    simp at this
  · intro a ha
    rw [hrun] at ha
    dsimp only at ha
    rw [collapse_anomalies] at ha
    simp only [List.mem_flatMap, List.mem_map] at ha
    obtain ⟨nr, hnr, b, _, rfl⟩ := ha
    have hsix := hkeys nr hnr
    have hdata : ("[" ++ nr.1 ++ "] " ++ b).data = ("[" ++ nr.1 ++ "] ").data ++ b.data := by
      simp
    rw [hdata]
    simp only [List.mem_cons, List.mem_singleton] at hsix
    rcases hsix with h | h | h | h | h | h | h <;> first
      | (rw [h]; exact not_prefix_append (by decide) (by decide))
      | simp at h
  · intro hall
    rw [hrun]
    dsimp only
    rw [hrun] at hall
    dsimp only at hall
    exact (collapse_passed _).2 hall
  · intro sub nbrs2 prev2 _ hnull
    unfold QCToolbox.qc_temperature_data
    rw [if_pos hnull]

/-- C10 witness: composite packet with an empty temperature record and a sane
humidity record — the collapsed verdict passes. -/
theorem C10_empty_subfield_skipped_witness :
    ((Val.dict [("type", Val.str "composite"), ("temperature", Val.dict []),
        ("humidity", Val.dict [("value", Val.num 50)])]).get "type" = Val.str "composite")
    ∧ ((Val.dict [("type", Val.str "composite"), ("temperature", Val.dict []),
        ("humidity", Val.dict [("value", Val.num 50)])]).get "temperature" = Val.dict [])
    ∧ (∀ nr ∈ (MonitorAgent.run (Val.dict [("type", Val.str "composite"),
          ("temperature", Val.dict []), ("humidity", Val.dict [("value", Val.num 50)])])
          none Val.null).all_results, nr.1 ≠ "temperature")
    ∧ (MonitorAgent.run (Val.dict [("type", Val.str "composite"),
        ("temperature", Val.dict []), ("humidity", Val.dict [("value", Val.num 50)])])
        none Val.null).qc_result.passed = true :=
  ⟨rfl, rfl,
    (C10_empty_subfield_skipped
      (Val.dict [("type", Val.str "composite"), ("temperature", Val.dict []),
        ("humidity", Val.dict [("value", Val.num 50)])]) none Val.null rfl rfl).1,
    by decide⟩

end RadarQC
